import Mathlib

/-!
Verification of the rdap client against its specification.

Shallow embedding of the repository's Go sources:
  * `src/handler/handler.go` — the CLI handler dispatch (package handler) and
    the bootstrap registry model (package rdap: `ServiceRegistry`, `Service`,
    `Values` and `Service.UnmarshalJSON`).
  * `src/client/client.go` — the client (`Client.query`,
    `Client.QueryIPNetwork`, `kindToSegment`, `Client.fetchAndUnmarshal`).
  * `src/transport_test.go` — tests of the default/bootstrap fetchers, whose
    implementations are not part of the sources; where a claim depends on
    them the definitions below are modelled from the spec and say so.

Errors are modelled as their message strings (Go errors in this code base are
created with `fmt.Errorf` and compared by message in the tests), fallible Go
functions as `Except String`, and the HTTP side effects of
`Client.fetchAndUnmarshal` as explicit function arguments.
-/

/-- `Values` from src/handler/handler.go (package rdap): `type Values []string`. -/
abbrev Values := List String

/-- `Service` from src/handler/handler.go (package rdap): `type Service [2]Values`;
item 0 is the entry list, item 1 the URI list. -/
abbrev Service := Values × Values

/-- `Service.Entries` from src/handler/handler.go: `return s[0]`. -/
def Service.Entries (s : Service) : Values := s.1

/-- `Service.URIs` from src/handler/handler.go: `return s[1]`. -/
def Service.URIs (s : Service) : Values := s.2

/-- The element predicate of `Values.Less` from src/handler/handler.go:
`strings.Split(v[i], ":")[0] == "https"`.  The first component of
`strings.Split(s, ":")` is the prefix of `s` before the first `:` (all of `s`
when there is none), embedded here as `takeWhile` on the character list.
`Values.Less(i, j)` inspects only `v[i]`, so it is a predicate on the left
element alone; the index form is `values_Less` below. -/
def values_lessKey (s : String) : Bool :=
  s.toList.takeWhile (fun c => c != ':') == "https".toList

/-- `Values.Less` from src/handler/handler.go:
`func (v Values) Less(i, j int) bool { return strings.Split(v[i], ":")[0] == "https" }`.
Out-of-range indices read the empty string (they never occur in `sort.Sort`). -/
def values_Less (v : Values) (i j : Nat) : Bool :=
  values_lessKey (v.getD i "")

/-- The inner loop of Go's `insertionSort` (`sort.Sort` runs plain insertion
sort on short slices such as bootstrap URI lists), specialised to
`Values.Less`: `for j := i; j > a && data.Less(j, j-1); j-- { data.Swap(j, j-1) }`.
Here `data.Less(j, j-1)` is `values_lessKey` of the moving element `x` and does
not depend on `j`, so the loop either runs until `j = a`, placing `x` in front
of the processed prefix `done`, or does not run at all, leaving `x` at the end. -/
def insertGo (done : List String) (x : String) : List String :=
  if values_lessKey x then x :: done else done ++ [x]

/-- Go's `insertionSort` routine with `Values.Less`: the outer loop
`for i := a + 1; i < b; i++` feeds each element in turn to the inner loop
`insertGo`.  `sort.Sort` — as run by `Service.UnmarshalJSON` on `sv[1]` and by
`Client.query` on the candidate list — executes exactly this routine only on
slices below its small-slice threshold: up to 7 elements in the Go this repo
vendors (larger slices go through `doPivot` quicksort), up to 6 in Go
1.7-1.18 (a gap-6 shell pass precedes insertion sort from 7 to 12 elements)
and up to 12 in Go 1.19+ (pdqsort above).  Every release runs plain insertion
sort on slices of at most 6 elements, so this function is a faithful model of
`sort.Sort(Values)` there (IANA bootstrap services list one or two URLs);
above that regime the result with this non-transitive `Less` is
Go-version-dependent and is not modelled, and theorems that depend on the
sorted order either restrict to the regime or concern singleton lists, where
every version agrees the sort is the identity. -/
def insertionSortGo (v : List String) : List String :=
  v.foldl insertGo []

/-- `ServiceRegistry` from src/handler/handler.go (package rdap); the
publication timestamp is kept as an opaque string. -/
structure ServiceRegistry where
  version : String
  publication : String
  description : String
  services : List Service

/-- `Service.UnmarshalJSON` from src/handler/handler.go, after the JSON layer:
the decoded pair `sv` is stored with `sort.Sort(sv[1])` applied to its URI
list (`*s = sv` after the sort). -/
def Service.load (sv : Values × Values) : Service :=
  (sv.1, insertionSortGo sv.2)

/-- `kind` from src/client/client.go: `dns`, `asn`, `ipv4`, `ipv6` (string
constants in Go, a closed enumeration here). -/
inductive Kind where
  | dns
  | asn
  | ipv4
  | ipv6
deriving DecidableEq

/-- The string value of each `kind` constant from src/client/client.go. -/
def Kind.name : Kind → String
  | .dns => "dns"
  | .asn => "asn"
  | .ipv4 => "ipv4"
  | .ipv6 => "ipv6"

/-- `kindToSegment` from src/client/client.go:
`map[kind]string{dns: "domain", asn: "autnum", ipv4: "ip", ipv6: "ip"}`. -/
def kindToSegment : Kind → String
  | .dns => "domain"
  | .asn => "autnum"
  | .ipv4 => "ip"
  | .ipv6 => "ip"

/-- The bootstrap document URI of `Client.query`:
`fmt.Sprintf(c.Bootstrap, kind)`, for templates with one `%s` verb such as
the default `RDAPBootstrap = "https://data.iana.org/rdap/%s.json"`. -/
def bootstrapURI (template : String) (k : Kind) : String :=
  template.replace "%s" k.name

/-- The `c.Host == ""` branch of `Client.query` (src/client/client.go lines
234-256), factored out so theorems can name it: fetch the bootstrap document
(`c.fetchAndUnmarshal(bootstrapURI, &r)`, modelled by the function argument
`fetchRegistry`), dispatch on the kind to `r.MatchDomain` / `r.MatchAS` /
`r.MatchIPNetwork` (the matcher implementations are not under src, so the
dispatched matcher is the function argument `matcher`), and reject an empty
match list with `fmt.Errorf("no matches for %v", identifier)`.  `identifier`
is the `%v` rendering of the query identifier. -/
def resolveCandidates (template : String) (k : Kind) (identifier : String)
    (fetchRegistry : String → Except String ServiceRegistry)
    (matcher : Kind → ServiceRegistry → Except String (List String)) :
    Except String (List String) :=
  match fetchRegistry (bootstrapURI template k) with
  | .error e => .error e
  | .ok r =>
    match matcher k r with
    | .error e => .error e
    | .ok uris =>
      if uris.length = 0 then .error ("no matches for " ++ identifier)
      else .ok uris

/-- The candidate loop of `Client.query` (src/client/client.go lines 264-273):
`for _, uri := range uris { err := c.fetchAndUnmarshal(fmt.Sprintf("%s/%s/%v",
uri, segment, identifier), object); if err != nil { continue }; return nil }`
followed by `return fmt.Errorf("no data available for %v", identifier)`.
The HTTP fetch-and-decode is the function argument `fetchObject`. -/
def candidateLoop (fetchObject : String → Except String Unit)
    (segment identifier : String) : List String → Except String Unit
  | [] => .error ("no data available for " ++ identifier)
  | uri :: rest =>
    match fetchObject (uri ++ "/" ++ segment ++ "/" ++ identifier) with
    | .error _ => candidateLoop fetchObject segment identifier rest
    | .ok _ => .ok ()

/-- `Client.query` from src/client/client.go (lines 231-274): when `c.Host`
is empty, resolve candidates through the bootstrap document, otherwise use
`uris = []string{c.Host}`; then `sort.Sort(bootstrap.Values(uris))`, look up
the kind's path segment and run the candidate loop. -/
def Client.query (host template : String) (k : Kind) (identifier : String)
    (fetchRegistry : String → Except String ServiceRegistry)
    (matcher : Kind → ServiceRegistry → Except String (List String))
    (fetchObject : String → Except String Unit) : Except String Unit :=
  match
    (if host = "" then resolveCandidates template k identifier fetchRegistry matcher
     else .ok [host]) with
  | .error e => .error e
  | .ok uris =>
    candidateLoop fetchObject (kindToSegment k) identifier (insertionSortGo uris)

/-- `net.IP` from the Go standard library: a byte slice (4 bytes for IPv4,
16 for IPv6). -/
abbrev IP := List Nat

/-- `net.IP.To4` from the Go standard library: a 4-byte address is returned
as is; a 16-byte address is returned as its last 4 bytes when it is an
IPv4-in-IPv6 address (10 zero bytes then 0xff, 0xff); otherwise nil. -/
def IP.To4 (ip : IP) : Option IP :=
  if ip.length = 4 then some ip
  else if ip.length = 16 ∧ ip.take 12 = [0, 0, 0, 0, 0, 0, 0, 0, 0, 0, 0xff, 0xff] then
    some (ip.drop 12)
  else none

/-- `net.IPNet` from the Go standard library: an address plus a mask. -/
structure IPNet where
  ip : IP
  mask : List Nat

/-- The kind selection of `Client.QueryIPNetwork` (src/client/client.go lines
215-229): `kind := ipv4; if ipnet.IP.To4() == nil { kind = ipv6 }`. -/
def queryIPNetworkKind (ipnet : IPNet) : Kind :=
  if ipnet.ip.To4 = none then Kind.ipv6 else Kind.ipv4

/-- `Client.QueryIPNetwork` from src/client/client.go: selects the kind from
the address family and delegates to `Client.query`; `identifier` is the `%v`
rendering of the `*net.IPNet`. -/
def Client.QueryIPNetwork (host template : String) (ipnet : IPNet) (identifier : String)
    (fetchRegistry : String → Except String ServiceRegistry)
    (matcher : Kind → ServiceRegistry → Except String (List String))
    (fetchObject : String → Except String Unit) : Except String Unit :=
  Client.query host template (queryIPNetworkKind ipnet) identifier
    fetchRegistry matcher fetchObject

/-- A first-success loop over fully built URLs, used to state that the
candidate loop consults exactly the URLs `<base>/<segment>/<identifier>`. -/
def tryURLs (fetchObject : String → Except String Unit)
    (identifier : String) : List String → Except String Unit
  | [] => .error ("no data available for " ++ identifier)
  | u :: rest =>
    match fetchObject u with
    | .error _ => tryURLs fetchObject identifier rest
    | .ok _ => .ok ()

/-- An HTTP response as seen by `Client.fetchAndUnmarshal`: status code,
Content-Type header and body. -/
structure HTTPResponse where
  status : Nat
  contentType : String
  body : String

/-- `Client.fetchAndUnmarshal` from src/client/client.go (lines 276-302):
build the GET request (`http.NewRequest`, which can fail on a malformed URI),
perform it (`cli.Do`), then decode the response body as JSON into the target
object (`json.NewDecoder(resp.Body).Decode(&object)`).  The three effectful
steps are function arguments; the status code and Content-Type of the
response are never consulted. -/
def Client.fetchAndUnmarshal {α : Type} (newRequest : String → Except String Unit)
    (doRequest : String → Except String HTTPResponse)
    (decodeJSON : String → Except String α) (uri : String) : Except String α :=
  match newRequest uri with
  | .error e => .error e
  | .ok _ =>
    match doRequest uri with
    | .error e => .error e
    | .ok resp =>
      match decodeJSON resp.body with
      | .error e => .error e
      | .ok a => .ok a

/-- `strconv.ParseUint(s, 10, 64)` from the Go standard library, value part:
a non-empty string of decimal digits parses to its value, anything else is a
syntax error (`ParseUint` accepts no sign and, in base 10, no underscores). -/
def parseUintBase10 (s : String) : Option Nat :=
  if s.isEmpty then none
  else if s.toList.all Char.isDigit then
    some (s.toList.foldl (fun n c => n * 10 + (c.toNat - '0'.toNat)) 0)
  else none

/-- `strconv.ParseUint(object, 10, 32)` as called by `Handler.ASN`
(src/handler/handler.go line 52): a base-10 parse whose value must fit in 32
bits, a range error otherwise. -/
def parseUint32 (s : String) : Option Nat :=
  match parseUintBase10 s with
  | none => none
  | some n => if n < 2 ^ 32 then some n else none

/-- The loop body of `Handler.Query` (src/handler/handler.go lines 35-46):
`ok, err = handler(object); if err != nil { return ok, err }; if ok { break }`,
with `return ok, nil` after the loop (all handlers declined leaves
`ok = false`).  A handler result is the Go pair `(bool, error)`, the error
being `none` for nil. -/
def dispatch (s : String) : List (String → Bool × Option String) → Bool × Option String
  | [] => (false, none)
  | h :: hs =>
    match h s with
    | (ok, some e) => (ok, some e)
    | (true, none) => (true, none)
    | (false, none) => dispatch s hs

/-- `Handler.ASN` from src/handler/handler.go (lines 51-82): parse the object
as an unsigned 32-bit integer, declining with `(false, nil)` on failure; then
optionally resolve URIs through the bootstrap client (`h.Bootstrap != nil`),
query the RDAP client and render the response, returning `(true, err)` on any
failure and `(true, nil)` on success.  The bootstrap, client and rendering
collaborators live in other packages and are function arguments. -/
def Handler.ASN {R : Type} (bootstrapASN : Option (Nat → Except String (List String)))
    (clientASN : List String → Nat → Except String R)
    (render : R → Except String Unit)
    (uris0 : List String) (s : String) : Bool × Option String :=
  match parseUint32 s with
  | none => (false, none)
  | some n =>
    match (match bootstrapASN with
           | none => Except.ok uris0
           | some b => b n : Except String (List String)) with
    | .error e => (true, some e)
    | .ok uris =>
      match clientASN uris n with
      | .error e => (true, some e)
      | .ok r =>
        match render r with
        | .error e => (true, some e)
        | .ok _ => (true, none)

/-- `Handler.IP` from src/handler/handler.go (lines 134-164): parse the object
with `net.ParseIP` (a Go standard-library function, passed in as an oracle),
declining with `(false, nil)` when it returns nil; otherwise resolve URIs,
query the RDAP client and render, as in `Handler.ASN`. -/
def Handler.IP {R : Type} (parseIP : String → Option IP)
    (bootstrapIP : Option (IP → Except String (List String)))
    (clientIP : List String → IP → Except String R)
    (render : R → Except String Unit)
    (uris0 : List String) (s : String) : Bool × Option String :=
  match parseIP s with
  | none => (false, none)
  | some ip =>
    match (match bootstrapIP with
           | none => Except.ok uris0
           | some b => b ip : Except String (List String)) with
    | .error e => (true, some e)
    | .ok uris =>
      match clientIP uris ip with
      | .error e => (true, some e)
      | .ok r =>
        match render r with
        | .error e => (true, some e)
        | .ok _ => (true, none)

/-- `Handler.IPNetwork` from src/handler/handler.go (lines 101-132): parse the
object with `net.ParseCIDR` (standard library, passed in as an oracle),
declining with `(false, nil)` on a parse error; otherwise resolve URIs, query
the RDAP client and render, as in `Handler.ASN`. -/
def Handler.IPNetwork {R : Type} (parseCIDR : String → Option IPNet)
    (bootstrapIPNet : Option (IPNet → Except String (List String)))
    (clientIPNet : List String → IPNet → Except String R)
    (render : R → Except String Unit)
    (uris0 : List String) (s : String) : Bool × Option String :=
  match parseCIDR s with
  | none => (false, none)
  | some cidr =>
    match (match bootstrapIPNet with
           | none => Except.ok uris0
           | some b => b cidr : Except String (List String)) with
    | .error e => (true, some e)
    | .ok uris =>
      match clientIPNet uris cidr with
      | .error e => (true, some e)
      | .ok r =>
        match render r with
        | .error e => (true, some e)
        | .ok _ => (true, none)

/-- `Handler.Query` from src/handler/handler.go (lines 24-49): try the five
kind handlers in the order of the `handlers` slice —
`h.ASN, h.IP, h.IPNetwork, h.Domain, h.Entity` — through the dispatch loop. -/
def Handler.Query (hASN hIP hIPNet hDom hEnt : String → Bool × Option String)
    (s : String) : Bool × Option String :=
  dispatch s [hASN, hIP, hIPNet, hDom, hEnt]

/-- `FetchOutcome` from the spec's data model (section 3): the classification
of one HTTP exchange at the single-fetch layer. -/
inductive FetchOutcome where
  | success (body : String)
  | notFound
  | protocolError (code : Nat)
  | localError (msg : String)
deriving DecidableEq

/-- `http.StatusText` from the Go standard library, for the codes the tests
exercise. -/
def statusText : Nat → String
  | 200 => "OK"
  | 400 => "Bad Request"
  | 404 => "Not Found"
  | 500 => "Internal Server Error"
  | _ => ""

/-- The `resp.Status` line of a Go HTTP response: code then reason phrase. -/
def statusLine (code : Nat) : String :=
  toString code ++ " " ++ statusText code

/-- Modelled from the spec: the response classification of the single-fetch
layer (spec section 4.3, classification steps 2-6, and the scenario table of
section 8).  The implementation (the default fetcher exercised by
`TestDefaultFetcherFetch` in src/transport_test.go) is not under src; this
definition follows the spec's classification order: HTTP 404 is the NotFound
sentinel regardless of media type; a 2xx with media type
`application/rdap+json` is Success with the body left undecoded; a 2xx with
any other media type is the local error `unexpected response: <status>`;
another non-2xx with the RDAP media type has its body decoded as an RDAP
error object, a decodable body yielding ProtocolError with the server's code
and an undecodable one the decoder's own error (the malformed-error-payload
local error, whose message the test at src/transport_test.go line 172 pins to
the raw JSON decode error); another non-2xx without the RDAP media type is
the generic `unexpected response: <status>` local error.  The RDAP
error-object decoder is the function argument `decodeRDAPError`, returning
the server's error code. -/
def classifyResponse (decodeRDAPError : String → Except String Nat)
    (status : Nat) (contentType body : String) : FetchOutcome :=
  if status = 404 then FetchOutcome.notFound
  else if 200 ≤ status ∧ status ≤ 299 then
    if contentType = "application/rdap+json" then FetchOutcome.success body
    else FetchOutcome.localError ("unexpected response: " ++ statusLine status)
  else
    if contentType = "application/rdap+json" then
      match decodeRDAPError body with
      | .ok code => FetchOutcome.protocolError code
      | .error e => FetchOutcome.localError e
    else FetchOutcome.localError ("unexpected response: " ++ statusLine status)

/-- Modelled from the spec: the bootstrap fetcher composition of spec section
4.4 — fetch the bootstrap document, enforce `specVersion` equality against
the supported constant (step d; a mismatch is the hard error
`incompatible bootstrap specification version: <got> (expecting <want>)`, the
message pinned by `TestBootstrap` in src/transport_test.go line 431), then
run the matcher (step e) and try the candidates (step f).  The fetcher
implementation exercised by `TestBootstrap` is not under src; document fetch,
matcher and candidate loop are function arguments. -/
def bootstrapFetcherFetch (supported : String)
    (fetchDoc : Except String ServiceRegistry)
    (matcher : ServiceRegistry → Except String (List String))
    (tryCandidates : List String → Except String Unit) : Except String Unit :=
  match fetchDoc with
  | .error e => .error e
  | .ok reg =>
    if reg.version ≠ supported then
      .error ("incompatible bootstrap specification version: " ++ reg.version ++
        " (expecting " ++ supported ++ ")")
    else
      match matcher reg with
      | .error e => .error e
      | .ok uris => tryCandidates uris

/-- Each step of Go's insertion sort under `Values.Less` prepends the new
element when its scheme part is `https` and appends it otherwise, so the fold
sends the https elements, reversed, to the front of the accumulator and the
others, in order, to the back. -/
lemma foldl_insertGo_eq (v : List String) :
    ∀ acc : List String, v.foldl insertGo acc =
      (v.filter values_lessKey).reverse ++ acc ++ v.filter (fun s => !values_lessKey s) := by
  induction v with
  | nil => intro acc; simp
  | cons x vs ih =>
    intro acc
    cases hx : values_lessKey x with
    | false =>
      simp only [List.foldl_cons, insertGo, hx, Bool.false_eq_true, if_false,
        List.filter_cons, Bool.not_false, if_true]
      rw [ih (acc ++ [x])]
      simp [List.append_assoc]
    | true =>
      simp only [List.foldl_cons, insertGo, hx, if_true, List.filter_cons,
        Bool.not_true, Bool.false_eq_true, if_false]
      rw [ih (x :: acc)]
      simp [List.append_assoc]

/-- The sort run by `Service.UnmarshalJSON` produces the https URLs in
reversed source order followed by the remaining URLs in source order. -/
lemma insertionSortGo_eq (v : List String) :
    insertionSortGo v =
      (v.filter values_lessKey).reverse ++ v.filter (fun s => !values_lessKey s) := by
  have h := foldl_insertGo_eq v []
  simpa [insertionSortGo] using h

/-- Applying the sort twice restores the https URLs to source order: the
second pass reverses the https block again, so the sort is an involution on
that block rather than idempotent. -/
lemma insertionSortGo_twice (v : List String) :
    insertionSortGo (insertionSortGo v) =
      v.filter values_lessKey ++ v.filter (fun s => !values_lessKey s) := by
  rw [insertionSortGo_eq, insertionSortGo_eq]
  rw [List.filter_append, List.filter_append]
  rw [List.filter_reverse, List.filter_reverse]
  rw [List.filter_filter, List.filter_filter]
  simp [List.filter_eq_nil_iff]

/-- A one-element URI list — such as `[c.Host]` in the override branch of
`Client.query` — is left unchanged by the sort. -/
lemma insertionSortGo_singleton (x : String) : insertionSortGo [x] = [x] := by
  rw [insertionSortGo_eq]
  cases hx : values_lessKey x <;> simp [List.filter_cons, hx]

/-- The candidate loop consults exactly the URLs `<base>/<segment>/<identifier>`
built from its candidate list, in order. -/
lemma candidateLoop_eq_tryURLs (f : String → Except String Unit) (seg id' : String) :
    ∀ uris : List String, candidateLoop f seg id' uris =
      tryURLs f id' (uris.map (fun u => u ++ "/" ++ seg ++ "/" ++ id')) := by
  intro uris
  induction uris with
  | nil => rfl
  | cons u rest ih =>
    simp only [candidateLoop, List.map_cons, tryURLs]
    cases f (u ++ "/" ++ seg ++ "/" ++ id') with
    | error e => simpa using ih
    | ok a => rfl

/-- A successful fetch of the first candidate ends the loop at once. -/
lemma candidateLoop_head_ok (f : String → Except String Unit) (seg id' u : String)
    (rest : List String) (h : f (u ++ "/" ++ seg ++ "/" ++ id') = .ok ()) :
    candidateLoop f seg id' (u :: rest) = .ok () := by
  simp only [candidateLoop, h]

/-- When every candidate's fetch fails, the loop discards all the errors and
returns the fresh `no data available` error. -/
lemma candidateLoop_all_fail (f : String → Except String Unit) (seg id' : String) :
    ∀ uris : List String,
      (∀ u ∈ uris, ∃ e, f (u ++ "/" ++ seg ++ "/" ++ id') = .error e) →
      candidateLoop f seg id' uris = .error ("no data available for " ++ id') := by
  intro uris
  induction uris with
  | nil => intro _; rfl
  | cons u rest ih =>
    intro h
    obtain ⟨e, he⟩ := h u (List.mem_cons_self u rest)
    simp only [candidateLoop, he]
    exact ih (fun v hv => h v (List.mem_cons_of_mem u hv))

/-- The first candidate whose fetch succeeds determines the loop's result:
the candidates after it are irrelevant. -/
lemma candidateLoop_first_ok (f : String → Except String Unit) (seg id' : String) :
    ∀ (pre : List String) (u : String) (rest : List String),
      (∀ v ∈ pre, ∃ e, f (v ++ "/" ++ seg ++ "/" ++ id') = .error e) →
      f (u ++ "/" ++ seg ++ "/" ++ id') = .ok () →
      candidateLoop f seg id' (pre ++ u :: rest) = .ok () := by
  intro pre
  induction pre with
  | nil => intro u rest _ hu; simpa using candidateLoop_head_ok f seg id' u rest hu
  | cons v pre' ih =>
    intro u rest hpre hu
    obtain ⟨e, he⟩ := hpre v (List.mem_cons_self v pre')
    simp only [List.cons_append, candidateLoop, he]
    exact ih u rest (fun w hw => hpre w (List.mem_cons_of_mem v hw)) hu

/-- One step of the `Handler.Query` loop: a handler that errors or claims the
object determines the result; a handler that declines passes control on. -/
lemma dispatch_cons (s : String) (h : String → Bool × Option String)
    (hs : List (String → Bool × Option String)) :
    dispatch s (h :: hs)
      = if (h s).2.isSome ∨ (h s).1 = true then h s else dispatch s hs := by
  rcases hval : h s with ⟨ok, e⟩
  cases ok <;> cases e <;> simp [dispatch, hval]

/-- Once `strconv.ParseUint(object, 10, 32)` succeeds, every branch of
`Handler.ASN` claims the object (first component `true`). -/
lemma handlerASN_fst_true (R : Type) (b : Option (Nat → Except String (List String)))
    (qa : List String → Nat → Except String R) (rd : R → Except String Unit)
    (u0 : List String) (s : String) (n : Nat) (h : parseUint32 s = some n) :
    (Handler.ASN b qa rd u0 s).1 = true := by
  simp only [Handler.ASN, h]
  split
  · rfl
  · split
    · rfl
    · split <;> rfl

/-- C1, counterexample: on the source list
`["https://a.example", "https://b.example"]` the load-time sort of
`Service.UnmarshalJSON` reverses the two https URLs — the relative order
within the https scheme class is not preserved — and applying the sort a
second time changes the list again, so the sort is not idempotent. -/
theorem c1_url_sort_counterexample :
    (Service.load (["com"], ["https://a.example", "https://b.example"])).URIs
      = ["https://b.example", "https://a.example"]
    ∧ insertionSortGo (insertionSortGo ["https://a.example", "https://b.example"])
        ≠ insertionSortGo ["https://a.example", "https://b.example"] := by
  decide

/-- C1, amended: for every Service decoded from a bootstrap document whose
URL list lies within `sort.Sort`'s insertion-sort regime (at most 6 URLs,
where every Go release runs plain insertion sort and the embedding
`insertionSortGo` is faithful; IANA bootstrap services list one or two), the
URL list stored at load consists of the https-scheme URLs in reversed source
order followed by all other URLs in preserved source order (so every https
URL precedes every other URL and the non-https class is stable, but the https
class is reversed), and a second application of the sort reverses the https
block back into source order instead of leaving the list unchanged.  The
hypothesis scopes the statement to the regime the model covers — above it the
program's order under this non-transitive `Less` is Go-version-dependent —
and is not needed by the proof, which is about the model. -/
theorem c1_url_sort_characterization (sv : Values × Values) (h : sv.2.length ≤ 6) :
    (Service.load sv).URIs
      = (sv.2.filter values_lessKey).reverse ++ sv.2.filter (fun s => !values_lessKey s)
    ∧ insertionSortGo ((Service.load sv).URIs)
      = sv.2.filter values_lessKey ++ sv.2.filter (fun s => !values_lessKey s) := by
  constructor
  · exact insertionSortGo_eq sv.2
  · show insertionSortGo (insertionSortGo sv.2) = _
    exact insertionSortGo_twice sv.2

/-- C1, witness: a three-URL service — one plain-http and two https URLs —
within the insertion-sort regime; the load-time sort reverses the https pair
in front of the http URL, and the second sort restores their source order. -/
theorem c1_url_sort_characterization_witness :
    (Service.load (["com"], ["http://a.example", "https://b.example", "https://c.example"])).URIs
      = ((["http://a.example", "https://b.example", "https://c.example"] : List String).filter
          values_lessKey).reverse
        ++ (["http://a.example", "https://b.example", "https://c.example"] : List String).filter
          (fun s => !values_lessKey s)
    ∧ insertionSortGo
        ((Service.load (["com"], ["http://a.example", "https://b.example", "https://c.example"])).URIs)
      = (["http://a.example", "https://b.example", "https://c.example"] : List String).filter
          values_lessKey
        ++ (["http://a.example", "https://b.example", "https://c.example"] : List String).filter
          (fun s => !values_lessKey s) :=
  c1_url_sort_characterization
    (["com"], ["http://a.example", "https://b.example", "https://c.example"]) (by decide)

/-- C2, amended: in the candidate loop of `Client.query`, the first candidate
whose fetch succeeds determines the result — candidates after it are
irrelevant — and when every candidate's fetch fails the loop discards all the
attempts' errors, the last included, and returns the fresh error
`no data available for <identifier>`. -/
theorem c2_candidate_loop (f : String → Except String Unit) (seg id' : String) :
    (∀ (pre : List String) (u : String) (rest : List String),
        (∀ v ∈ pre, ∃ e, f (v ++ "/" ++ seg ++ "/" ++ id') = .error e) →
        f (u ++ "/" ++ seg ++ "/" ++ id') = .ok () →
        candidateLoop f seg id' (pre ++ u :: rest) = .ok ())
    ∧ (∀ uris : List String,
        (∀ u ∈ uris, ∃ e, f (u ++ "/" ++ seg ++ "/" ++ id') = .error e) →
        candidateLoop f seg id' uris = .error ("no data available for " ++ id')) :=
  ⟨candidateLoop_first_ok f seg id', candidateLoop_all_fail f seg id'⟩

/-- C2, counterexample: with a single candidate whose fetch fails with
`connection refused`, `Client.query` returns the fresh error
`no data available for example.com`, not the last attempt's error. -/
theorem c2_candidate_loop_counterexample :
    Client.query "" "https://data.iana.org/rdap/%s.json" Kind.dns "example.com"
        (fun _ => Except.ok ⟨"1.0", "", "", []⟩)
        (fun _ _ => Except.ok ["http://a.example"])
        (fun _ => Except.error "connection refused")
      = .error "no data available for example.com"
    ∧ ("no data available for example.com" : String) ≠ "connection refused" := by
  constructor
  · rfl
  · decide

/-- C2, witness: a concrete loop in which the second of three candidates is
the first to succeed, and a concrete loop in which both candidates fail and
the fresh `no data available` error is returned. -/
theorem c2_candidate_loop_witness :
    candidateLoop
        (fun s => if s = "https://y/domain/ex" then Except.ok () else Except.error "nope")
        "domain" "ex" ["http://x", "https://y", "http://z"] = .ok ()
    ∧ candidateLoop (fun _ => Except.error "boom") "domain" "ex" ["http://x", "https://y"]
        = .error "no data available for ex" := by
  constructor
  · exact (c2_candidate_loop _ "domain" "ex").1 ["http://x"] "https://y" ["http://z"]
      (by
        intro v hv
        rw [List.mem_singleton] at hv
        subst hv
        exact ⟨"nope", rfl⟩)
      rfl
  · exact (c2_candidate_loop _ "domain" "ex").2 ["http://x", "https://y"]
      (fun u _ => ⟨"boom", rfl⟩)

/-- C3: when the fetched bootstrap document's version differs from the
supported constant, the bootstrap fetcher fails with the
`incompatible bootstrap specification version` error, and the result does not
depend on the matcher or on the candidate fetches — the matcher is never
consulted. -/
theorem c3_version_check (supported : String) (reg : ServiceRegistry)
    (m m2 : ServiceRegistry → Except String (List String))
    (t t2 : List String → Except String Unit) (h : reg.version ≠ supported) :
    bootstrapFetcherFetch supported (.ok reg) m t
      = .error ("incompatible bootstrap specification version: " ++ reg.version ++
          " (expecting " ++ supported ++ ")")
    ∧ bootstrapFetcherFetch supported (.ok reg) m t
      = bootstrapFetcherFetch supported (.ok reg) m2 t2 := by
  constructor <;> simp [bootstrapFetcherFetch, h]

/-- C3, witness: a registry whose version string is `1.0x` against a
supported constant of `1.0`, the case exercised by `TestBootstrap`. -/
theorem c3_version_check_witness :
    bootstrapFetcherFetch "1.0" (.ok ⟨"1.0x", "", "", []⟩)
        (fun _ => Except.ok ["https://rdap.example"]) (fun _ => Except.ok ())
      = .error "incompatible bootstrap specification version: 1.0x (expecting 1.0)" :=
  (c3_version_check "1.0" ⟨"1.0x", "", "", []⟩
    (fun _ => Except.ok ["https://rdap.example"]) (fun _ => Except.error "unused")
    (fun _ => Except.ok ()) (fun _ => Except.error "unused") (by decide)).1

/-- C4: the single-fetch classification — 404 is the NotFound sentinel for
every media type; a 2xx with the RDAP media type is Success with the body
left undecoded; a 2xx with another media type is the
`unexpected response: <status>` local error, `unexpected response: 200 OK`
at status 200; another non-2xx with the RDAP media type yields ProtocolError
with the server's code when the error body decodes, and the decoder's local
error (the malformed-error-payload case) when it does not. -/
theorem c4_classification (dec : String → Except String Nat) (status : Nat)
    (ct body e : String) (code : Nat) :
    (status = 404 → classifyResponse dec status ct body = .notFound)
    ∧ (200 ≤ status → status ≤ 299 → ct = "application/rdap+json" →
        classifyResponse dec status ct body = .success body)
    ∧ (200 ≤ status → status ≤ 299 → ct ≠ "application/rdap+json" →
        classifyResponse dec status ct body
          = .localError ("unexpected response: " ++ statusLine status))
    ∧ (ct ≠ "application/rdap+json" →
        classifyResponse dec 200 ct body = .localError "unexpected response: 200 OK")
    ∧ (¬ (200 ≤ status ∧ status ≤ 299) → status ≠ 404 → ct = "application/rdap+json" →
        dec body = .ok code → classifyResponse dec status ct body = .protocolError code)
    ∧ (¬ (200 ≤ status ∧ status ≤ 299) → status ≠ 404 → ct = "application/rdap+json" →
        dec body = .error e → classifyResponse dec status ct body = .localError e) := by
  refine ⟨?_, ?_, ?_, ?_, ?_, ?_⟩
  · intro h
    rw [classifyResponse, if_pos h]
  · intro h1 h2 h3
    have h404 : status ≠ 404 := by omega
    rw [classifyResponse, if_neg h404, if_pos ⟨h1, h2⟩, if_pos h3]
  · intro h1 h2 h3
    have h404 : status ≠ 404 := by omega
    rw [classifyResponse, if_neg h404, if_pos ⟨h1, h2⟩, if_neg h3]
  · intro h3
    rw [classifyResponse, if_neg (by decide : ¬ (200 = 404)),
      if_pos (by constructor <;> decide : 200 ≤ 200 ∧ 200 ≤ 299), if_neg h3]
    rfl
  · intro h1 h2 h3 h4
    rw [classifyResponse, if_neg h2, if_neg h1, if_pos h3, h4]
  · intro h1 h2 h3 h4
    rw [classifyResponse, if_neg h2, if_neg h1, if_pos h3, h4]

/-- C4, witness: the classification at the concrete responses of
`TestDefaultFetcherFetch` — a 404, a 200 with and without the RDAP media
type, a 400 with a decodable RDAP error body, a 400 with an undecodable
body, and a non-200 success status without the RDAP media type. -/
theorem c4_classification_witness :
    classifyResponse (fun _ => Except.ok 0) 404 "text/html" "ignored" = .notFound
    ∧ classifyResponse (fun _ => Except.ok 0) 200 "application/rdap+json" "THE-BODY"
        = .success "THE-BODY"
    ∧ classifyResponse (fun _ => Except.ok 0) 200 "text/html" "x"
        = .localError "unexpected response: 200 OK"
    ∧ classifyResponse (fun _ => Except.ok 400) 400 "application/rdap+json" "x"
        = .protocolError 400
    ∧ classifyResponse
        (fun _ => Except.error "invalid character given looking for beginning of object key string")
        400 "application/rdap+json" "given"
        = .localError "invalid character given looking for beginning of object key string"
    ∧ classifyResponse (fun _ => Except.ok 0) 204 "text/html" "x"
        = .localError ("unexpected response: " ++ statusLine 204) := by
  refine ⟨?_, ?_, ?_, ?_, ?_, ?_⟩
  · exact (c4_classification (fun _ => Except.ok 0) 404 "text/html" "ignored" "e" 0).1 rfl
  · exact (c4_classification (fun _ => Except.ok 0) 200 "application/rdap+json" "THE-BODY" "e" 0).2.1
      (by decide) (by decide) rfl
  · exact (c4_classification (fun _ => Except.ok 0) 200 "text/html" "x" "e" 0).2.2.2.1
      (by decide)
  · exact (c4_classification (fun _ => Except.ok 400) 400 "application/rdap+json" "x" "e" 400).2.2.2.2.1
      (by omega) (by decide) rfl rfl
  · exact (c4_classification
      (fun _ => Except.error "invalid character given looking for beginning of object key string")
      400 "application/rdap+json" "given"
      "invalid character given looking for beginning of object key string" 0).2.2.2.2.2
      (by omega) (by decide) rfl rfl
  · exact (c4_classification (fun _ => Except.ok 0) 204 "text/html" "x" "e" 0).2.2.1
      (by decide) (by decide) (by decide)

/-- C5: with a non-empty Host override, `Client.query` uses the override as
the sole candidate and its result does not depend on the bootstrap fetch or
the matcher — neither runs; with an empty Host the full bootstrap resolution
path (fetch, match, no-match check, sort, candidate loop) runs. -/
theorem c5_host_override (host template id' : String) (k : Kind)
    (fr fr2 : String → Except String ServiceRegistry)
    (m m2 : Kind → ServiceRegistry → Except String (List String))
    (fo : String → Except String Unit) (h : host ≠ "") :
    Client.query host template k id' fr m fo
      = candidateLoop fo (kindToSegment k) id' [host]
    ∧ Client.query host template k id' fr m fo
      = Client.query host template k id' fr2 m2 fo
    ∧ (∀ fr3 m3, Client.query "" template k id' fr3 m3 fo
        = match resolveCandidates template k id' fr3 m3 with
          | .error e => .error e
          | .ok uris => candidateLoop fo (kindToSegment k) id' (insertionSortGo uris)) := by
  have hq : Client.query host template k id' fr m fo
      = candidateLoop fo (kindToSegment k) id' [host] := by
    simp only [Client.query, if_neg h]
    rw [insertionSortGo_singleton]
  have hq2 : Client.query host template k id' fr2 m2 fo
      = candidateLoop fo (kindToSegment k) id' [host] := by
    simp only [Client.query, if_neg h]
    rw [insertionSortGo_singleton]
  refine ⟨hq, hq.trans hq2.symm, ?_⟩
  intro fr3 m3
  simp [Client.query]

/-- C5, witness: a concrete override host is the sole candidate even though
the bootstrap fetch and the matcher would both fail if consulted. -/
theorem c5_host_override_witness :
    Client.query "https://h.test" "https://data.iana.org/rdap/%s.json" Kind.dns "example.com"
        (fun _ => Except.error "bootstrap down") (fun _ _ => Except.error "matcher down")
        (fun _ => Except.error "server down")
      = candidateLoop (fun _ => Except.error "server down") (kindToSegment Kind.dns)
          "example.com" ["https://h.test"] :=
  (c5_host_override "https://h.test" "https://data.iana.org/rdap/%s.json" "example.com"
    Kind.dns (fun _ => Except.error "bootstrap down") (fun _ => Except.error "other")
    (fun _ _ => Except.error "matcher down") (fun _ _ => Except.error "other")
    (fun _ => Except.error "server down") (by decide)).1

/-- C6: the path segment is `domain` for dns, `autnum` for asn and `ip` for
both ipv4 and ipv6; the candidate loop consults exactly the URLs
`<base>/<segment>/<identifier>`; and `Client.QueryIPNetwork` picks the ipv4
kind exactly when the network's address is an IPv4 address (`To4` non-nil),
delegating to the same `Client.query` either way. -/
theorem c6_query_url_shape :
    kindToSegment Kind.dns = "domain"
    ∧ kindToSegment Kind.asn = "autnum"
    ∧ kindToSegment Kind.ipv4 = "ip"
    ∧ kindToSegment Kind.ipv6 = "ip"
    ∧ (∀ (f : String → Except String Unit) (seg id' : String) (uris : List String),
        candidateLoop f seg id' uris
          = tryURLs f id' (uris.map (fun u => u ++ "/" ++ seg ++ "/" ++ id')))
    ∧ (∀ ipnet : IPNet, queryIPNetworkKind ipnet
        = if (ipnet.ip.To4).isSome then Kind.ipv4 else Kind.ipv6)
    ∧ (∀ (host template id' : String) (ipnet : IPNet)
        (fr : String → Except String ServiceRegistry)
        (m : Kind → ServiceRegistry → Except String (List String))
        (fo : String → Except String Unit),
        Client.QueryIPNetwork host template ipnet id' fr m fo
          = Client.query host template (queryIPNetworkKind ipnet) id' fr m fo) := by
  refine ⟨rfl, rfl, rfl, rfl, ?_, ?_, ?_⟩
  · intro f seg id' uris
    exact candidateLoop_eq_tryURLs f seg id' uris
  · intro ipnet
    rw [queryIPNetworkKind]
    cases h : ipnet.ip.To4 <;> simp [h]
  · intro host template id' ipnet fr m fo
    rfl

/-- C7, amended: an identifier string that fails IP-address or CIDR parsing
makes `Handler.IP` (resp. `Handler.IPNetwork`) return `(false, nil)` without
consulting the bootstrap matcher or the RDAP client — the result is the same
for every choice of those collaborators — so no network call is made on its
behalf; the handler declines the object without producing an error value
rather than rejecting it as a local error. -/
theorem c7_parse_guard :
    (∀ (R : Type) (parseIP : String → Option IP)
        (b b2 : Option (IP → Except String (List String)))
        (c c2 : List String → IP → Except String R)
        (rd rd2 : R → Except String Unit) (u0 u02 : List String) (s : String),
        parseIP s = none →
        Handler.IP parseIP b c rd u0 s = (false, none)
        ∧ Handler.IP parseIP b c rd u0 s = Handler.IP parseIP b2 c2 rd2 u02 s)
    ∧ (∀ (R : Type) (parseCIDR : String → Option IPNet)
        (b b2 : Option (IPNet → Except String (List String)))
        (c c2 : List String → IPNet → Except String R)
        (rd rd2 : R → Except String Unit) (u0 u02 : List String) (s : String),
        parseCIDR s = none →
        Handler.IPNetwork parseCIDR b c rd u0 s = (false, none)
        ∧ Handler.IPNetwork parseCIDR b c rd u0 s
            = Handler.IPNetwork parseCIDR b2 c2 rd2 u02 s) := by
  constructor
  · intro R parseIP b b2 c c2 rd rd2 u0 u02 s h
    constructor
    · simp only [Handler.IP, h]
    · simp only [Handler.IP, h]
  · intro R parseCIDR b b2 c c2 rd rd2 u0 u02 s h
    constructor
    · simp only [Handler.IPNetwork, h]
    · simp only [Handler.IPNetwork, h]

/-- C7, counterexample: on a string the oracle rejects, `Handler.IP` and
`Handler.IPNetwork` return `(false, none)` — the second component is `none`,
so the string is not rejected as an error of any kind, contradicting
`rejected as a local error`. -/
theorem c7_parse_guard_counterexample :
    @Handler.IP Unit (fun _ => none) none (fun _ _ => Except.ok ())
        (fun _ => Except.ok ()) [] "not-an-ip" = (false, none)
    ∧ (@Handler.IP Unit (fun _ => none) none (fun _ _ => Except.ok ())
        (fun _ => Except.ok ()) [] "not-an-ip").2 = none
    ∧ @Handler.IPNetwork Unit (fun _ => none) none (fun _ _ => Except.ok ())
        (fun _ => Except.ok ()) [] "not-a-cidr" = (false, none)
    ∧ (@Handler.IPNetwork Unit (fun _ => none) none (fun _ _ => Except.ok ())
        (fun _ => Except.ok ()) [] "not-a-cidr").2 = none :=
  ⟨rfl, rfl, rfl, rfl⟩

/-- C7, witness: concrete strings that `net.ParseIP` and `net.ParseCIDR`
reject (an out-of-range dotted quad and an out-of-range mask length),
handled with the oracle that rejects them. -/
theorem c7_parse_guard_witness :
    @Handler.IP Unit (fun _ => none) none (fun _ _ => Except.ok ())
        (fun _ => Except.ok ()) ["https://u.example"] "300.300.300.300" = (false, none)
    ∧ @Handler.IPNetwork Unit (fun _ => none) none (fun _ _ => Except.ok ())
        (fun _ => Except.ok ()) ["https://u.example"] "10.0.0.0/99" = (false, none) :=
  ⟨(c7_parse_guard.1 Unit (fun _ => none) none none (fun _ _ => Except.ok ())
      (fun _ _ => Except.ok ()) (fun _ => Except.ok ()) (fun _ => Except.ok ())
      ["https://u.example"] [] "300.300.300.300" rfl).1,
   (c7_parse_guard.2 Unit (fun _ => none) none none (fun _ _ => Except.ok ())
      (fun _ _ => Except.ok ()) (fun _ => Except.ok ()) (fun _ => Except.ok ())
      ["https://u.example"] [] "10.0.0.0/99" rfl).1⟩

/-- C8: when the matcher returns an empty candidate list, `Client.query`
returns the error `no matches for <identifier>` and its result does not
depend on the object fetcher — no transport attempt is involved in this
outcome. -/
theorem c8_no_matches (template id' : String) (k : Kind) (r : ServiceRegistry)
    (fr : String → Except String ServiceRegistry)
    (m : Kind → ServiceRegistry → Except String (List String))
    (fo fo2 : String → Except String Unit)
    (h1 : fr (bootstrapURI template k) = .ok r) (h2 : m k r = .ok []) :
    Client.query "" template k id' fr m fo = .error ("no matches for " ++ id')
    ∧ Client.query "" template k id' fr m fo = Client.query "" template k id' fr m fo2 := by
  have hres : resolveCandidates template k id' fr m = .error ("no matches for " ++ id') := by
    simp [resolveCandidates, h1, h2]
  constructor <;> simp [Client.query, hres]

/-- C8, witness: a registry whose matcher yields no candidates for
`example.com` produces exactly `no matches for example.com`. -/
theorem c8_no_matches_witness :
    Client.query "" "https://data.iana.org/rdap/%s.json" Kind.dns "example.com"
        (fun _ => Except.ok ⟨"1.0", "", "", []⟩) (fun _ _ => Except.ok [])
        (fun _ => Except.error "transport failure")
      = .error "no matches for example.com" :=
  (c8_no_matches "https://data.iana.org/rdap/%s.json" "example.com" Kind.dns
    ⟨"1.0", "", "", []⟩ (fun _ => Except.ok ⟨"1.0", "", "", []⟩)
    (fun _ _ => Except.ok []) (fun _ => Except.error "transport failure")
    (fun _ => Except.ok ()) rfl rfl).1

/-- C9: `Handler.Query` tries the handlers in the fixed slice order and one
that errors or claims the object determines the result; when the input
parses as an unsigned 32-bit integer the ASN handler claims it, so the query
is dispatched as an AS-number query — the result never depends on the later
IP, IPNetwork, Domain or Entity handlers, so such a string is never treated
as a domain. -/
theorem c9_dispatch_order :
    (∀ (s : String) (h : String → Bool × Option String)
        (hs : List (String → Bool × Option String)),
        dispatch s (h :: hs)
          = if (h s).2.isSome ∨ (h s).1 = true then h s else dispatch s hs)
    ∧ (∀ (R : Type) (b : Option (Nat → Except String (List String)))
        (qa : List String → Nat → Except String R) (rd : R → Except String Unit)
        (u0 : List String) (s : String) (n : Nat),
        parseUint32 s = some n →
        ∀ hIP hIPNet hDom hEnt hIP2 hIPNet2 hDom2 hEnt2 :
            String → Bool × Option String,
          Handler.Query (Handler.ASN b qa rd u0) hIP hIPNet hDom hEnt s
            = Handler.ASN b qa rd u0 s
          ∧ (Handler.Query (Handler.ASN b qa rd u0) hIP hIPNet hDom hEnt s).1 = true
          ∧ Handler.Query (Handler.ASN b qa rd u0) hIP hIPNet hDom hEnt s
            = Handler.Query (Handler.ASN b qa rd u0) hIP2 hIPNet2 hDom2 hEnt2 s) := by
  constructor
  · exact dispatch_cons
  · intro R b qa rd u0 s n h hIP hIPNet hDom hEnt hIP2 hIPNet2 hDom2 hEnt2
    have htrue := handlerASN_fst_true R b qa rd u0 s n h
    have key : ∀ rest : List (String → Bool × Option String),
        dispatch s (Handler.ASN b qa rd u0 :: rest) = Handler.ASN b qa rd u0 s := by
      intro rest
      rw [dispatch_cons, if_pos (Or.inr htrue)]
    refine ⟨key _, ?_, (key _).trans (key _).symm⟩
    rw [Handler.Query, key _]
    exact htrue

/-- C9, witness: the largest unsigned 32-bit integer, `4294967295`, is
claimed by the ASN handler even though the later handlers — including the
domain handler, which would also claim it — are willing to. -/
theorem c9_dispatch_order_witness :
    (Handler.Query
        (@Handler.ASN Unit none (fun _ _ => Except.ok ()) (fun _ => Except.ok ()) [])
        (fun _ => (false, none)) (fun _ => (false, none)) (fun _ => (true, none))
        (fun _ => (true, none)) "4294967295").1 = true :=
  ((c9_dispatch_order.2 Unit none (fun _ _ => Except.ok ()) (fun _ => Except.ok ())
      [] "4294967295" 4294967295 (by decide)
      (fun _ => (false, none)) (fun _ => (false, none)) (fun _ => (true, none))
      (fun _ => (true, none)) (fun _ => (false, none)) (fun _ => (false, none))
      (fun _ => (false, none)) (fun _ => (false, none))).2).1

/-- C10: `Client.fetchAndUnmarshal` never inspects the status code or the
Content-Type — when request construction and transport succeed, its result
is exactly the JSON decode of the body, so two responses with the same body
give the same result whatever their status and media type — and it fails
only with a request-construction, transport or decode error. -/
theorem c10_fetch_unconditional_decode (α : Type)
    (newRequest : String → Except String Unit)
    (doRequest : String → Except String HTTPResponse)
    (decodeJSON : String → Except String α) (uri : String)
    (resp : HTTPResponse) (e : String) :
    (newRequest uri = .ok () → doRequest uri = .ok resp →
        Client.fetchAndUnmarshal newRequest doRequest decodeJSON uri = decodeJSON resp.body)
    ∧ (newRequest uri = .error e →
        Client.fetchAndUnmarshal newRequest doRequest decodeJSON uri = .error e)
    ∧ (newRequest uri = .ok () → doRequest uri = .error e →
        Client.fetchAndUnmarshal newRequest doRequest decodeJSON uri = .error e)
    ∧ (newRequest uri = .ok () →
        ∀ (d1 d2 : String → Except String HTTPResponse) (r1 r2 : HTTPResponse),
          d1 uri = .ok r1 → d2 uri = .ok r2 → r1.body = r2.body →
          Client.fetchAndUnmarshal newRequest d1 decodeJSON uri
            = Client.fetchAndUnmarshal newRequest d2 decodeJSON uri) := by
  have base : ∀ (d : String → Except String HTTPResponse) (r : HTTPResponse),
      newRequest uri = .ok () → d uri = .ok r →
      Client.fetchAndUnmarshal newRequest d decodeJSON uri = decodeJSON r.body := by
    intro d r h1 h2
    rw [Client.fetchAndUnmarshal, h1, h2]
    cases h : decodeJSON r.body <;> simp [h]
  refine ⟨base doRequest resp, ?_, ?_, ?_⟩
  · intro h1
    rw [Client.fetchAndUnmarshal, h1]
  · intro h1 h2
    rw [Client.fetchAndUnmarshal, h1, h2]
  · intro h1 d1 d2 r1 r2 hd1 hd2 hbody
    rw [base d1 r1 h1 hd1, base d2 r2 h1 hd2, hbody]

/-- C10, witness: a 500 text/html response is decoded all the same; a bad
URI and a refused connection propagate unchanged; and a 200 RDAP response
and a 500 text/html response with the same body yield the same result. -/
theorem c10_fetch_unconditional_decode_witness :
    Client.fetchAndUnmarshal (fun _ => Except.ok ())
        (fun _ => Except.ok ⟨500, "text/html", "7"⟩)
        (fun b => Except.ok b.length) "https://h.test/domain/example.com"
      = Except.ok 1
    ∧ Client.fetchAndUnmarshal (fun _ => Except.error "bad uri")
        (fun _ => Except.ok (⟨200, "application/rdap+json", "x"⟩ : HTTPResponse))
        (fun b => Except.ok b.length) "abc" = Except.error "bad uri"
    ∧ Client.fetchAndUnmarshal (fun _ => Except.ok ())
        (fun _ => (Except.error "refused" : Except String HTTPResponse))
        (fun b => Except.ok b.length) "https://h.test" = Except.error "refused"
    ∧ Client.fetchAndUnmarshal (fun _ => Except.ok ())
        (fun _ => Except.ok (⟨200, "application/rdap+json", "B"⟩ : HTTPResponse))
        (fun b => Except.ok b.length) "https://h.test"
      = Client.fetchAndUnmarshal (fun _ => Except.ok ())
        (fun _ => Except.ok (⟨500, "text/html", "B"⟩ : HTTPResponse))
        (fun b => Except.ok b.length) "https://h.test" := by
  refine ⟨?_, ?_, ?_, ?_⟩
  · exact ((c10_fetch_unconditional_decode Nat (fun _ => Except.ok ())
      (fun _ => Except.ok ⟨500, "text/html", "7"⟩) (fun b => Except.ok b.length)
      "https://h.test/domain/example.com" ⟨500, "text/html", "7"⟩ "e").1 rfl rfl).trans
      rfl
  · exact (c10_fetch_unconditional_decode Nat (fun _ => Except.error "bad uri")
      (fun _ => Except.ok ⟨200, "application/rdap+json", "x"⟩) (fun b => Except.ok b.length)
      "abc" ⟨200, "application/rdap+json", "x"⟩ "bad uri").2.1 rfl
  · exact (c10_fetch_unconditional_decode Nat (fun _ => Except.ok ())
      (fun _ => Except.error "refused") (fun b => Except.ok b.length)
      "https://h.test" ⟨200, "application/rdap+json", "x"⟩ "refused").2.2.1 rfl rfl
  · exact (c10_fetch_unconditional_decode Nat (fun _ => Except.ok ())
      (fun _ => Except.ok ⟨200, "application/rdap+json", "B"⟩) (fun b => Except.ok b.length)
      "https://h.test" ⟨200, "application/rdap+json", "B"⟩ "e").2.2.2 rfl
      (fun _ => Except.ok ⟨200, "application/rdap+json", "B"⟩)
      (fun _ => Except.ok ⟨500, "text/html", "B"⟩)
      ⟨200, "application/rdap+json", "B"⟩ ⟨500, "text/html", "B"⟩ rfl rfl rfl
